import Mathlib

/-!
Verification of the SDLC workflow application (src/app.py).

The application is a single-threaded, session-scoped workflow: a static
registry of stages, per-stage generated content, feedback and approval
flags held in the session state, and a handful of handlers that mutate
that state.  This file embeds the registry, the prompt templates, the
session state and each handler as executable Lean definitions, translated
clause by clause from app.py, and proves the behavioural properties of
the workflow against them.

Python dictionaries are modelled as association lists with
first-occurrence lookup and replace-or-append assignment, matching dict
semantics for the operations the code uses (membership, get with
default, indexing, assignment).  The external completion service and the
wall-clock timestamp are the only effects abstracted: the service is a
function parameter returning either text or an error, and the timestamp
is dropped from the export record (no claim concerns it).
-/

/-- Lookup in a Python dict modelled as an association list: the value of
the first binding of the key, as with d.get(k) / d[k]. -/
def lookupD {α : Type} : List (String × α) → String → Option α
  | [], _ => none
  | p :: rest, k => if p.1 = k then some p.2 else lookupD rest k

/-- Python dict assignment d[k] = v: replace the first binding of k when
one exists, otherwise append the new binding. -/
def insertD {α : Type} : List (String × α) → String → α → List (String × α)
  | [], k, v => [(k, v)]
  | p :: rest, k, v => if p.1 = k then (k, v) :: rest else p :: insertD rest k v

/-- One entry of the stage registry (an element of WORKFLOW_STEPS in
app.py, lines 28-39). -/
structure Step where
  id : String
  label : String
  icon : String
  color : String
deriving DecidableEq

/-- The static, ordered stage registry (app.py lines 28-39). -/
def WORKFLOW_STEPS : List Step := [
  ⟨"api_input", "🤖 AI Powered Automation", "fa-key", "#2196F3"⟩,
  ⟨"user_stories", "User Stories", "fa-clipboard-list", "#4CAF50"⟩,
  ⟨"design_docs", "Design Docs", "fa-drafting-compass", "#FF9800"⟩,
  ⟨"code_generation", "Code Generation", "fa-code", "#9C27B0"⟩,
  ⟨"code_review", "Code Review", "fa-search-plus", "#00BCD4"⟩,
  ⟨"security_review", "Security Review", "fa-shield-alt", "#F44336"⟩,
  ⟨"test_cases", "Test Cases", "fa-vial", "#8BC34A"⟩,
  ⟨"qa_testing", "QA Testing", "fa-check-double", "#3F51B5"⟩,
  ⟨"deployment", "Deployment", "fa-rocket", "#E91E63"⟩,
  ⟨"monitoring", "Monitoring", "fa-chart-line", "#009688"⟩]

/-- The prompt templates dict (app.py lines 42-56); only five stage ids
have an entry. -/
def PROMPT_TEMPLATES : List (String × String) := [
  ("user_stories",
   "Generate comprehensive user stories for: {prompt}. Include acceptance criteria."),
  ("design_docs",
   "Create functional and technical design documents for: {prompt}\n    Functional:\n    - User flows\n    - Feature specs\n    \n    Technical:\n    - Architecture\n    - Tech stack\n    - Data models"),
  ("code_generation",
   "Generate production-ready code for: {prompt}. Include error handling and docs."),
  ("test_cases",
   "Create test cases for: {prompt}. Include positive/negative scenarios."),
  ("deployment",
   "Create deployment plan for: {prompt}. Include rollback strategy.")]

/-- The mutable per-session state (the st.session_state fields the
workflow uses, initialised at app.py lines 7-18). -/
structure SessionState where
  current_step : String
  approved : List (String × Bool)
  feedback : List (String × String)
  generated_content : List (String × String)
  show_completion_prompt : Bool
  project_prompt : String
deriving DecidableEq

/-- The external completion service (the Groq client): a prompt and a
step id give either the generated text or an error message. -/
def GroqService : Type := String → String → Except String String

/-- generate_with_groq (app.py lines 58-76): one call to the completion
service; the except-branch shows the error inline and returns the empty
string, so a failing call yields "" to the caller. -/
def generate_with_groq (svc : GroqService) (prompt step : String) : String :=
  match svc prompt step with
  | Except.ok content => content
  | Except.error _ => ""

/-- Truthiness of feedback.get(step_id) in Python: a present and
non-empty feedback string. -/
def pendingD (m : List (String × String)) (step_id : String) : Bool :=
  match lookupD m step_id with
  | none => false
  | some t => t != ""

/-- The render guard of render_sdlc_step (app.py line 143): the stage has
no generated content yet, or feedback.get(step_id) is truthy. -/
def needs_generation (s : SessionState) (step_id : String) : Bool :=
  (lookupD s.generated_content step_id).isNone || pendingD s.feedback step_id

/-- The prompt built by render_sdlc_step (app.py lines 144-146): the
stage's template (default "") with the project description substituted
for the slot, then the pending feedback appended when truthy. -/
def build_prompt (s : SessionState) (step_id : String) : String :=
  let base := ((lookupD PROMPT_TEMPLATES step_id).getD "").replace
    "{prompt}" s.project_prompt
  match lookupD s.feedback step_id with
  | some t => if t != "" then base ++ "\n\nFeedback: " ++ t else base
  | none => base

/-- The assignment at app.py line 149 that stores a generation result:
generated_content[step_id] = content.  It touches no other field. -/
def record_generated (s : SessionState) (step_id content : String) : SessionState :=
  { s with generated_content := insertD s.generated_content step_id content }

/-- The generation phase of render_sdlc_step (app.py lines 143-149): when
the guard holds, call the service on the built prompt and store whatever
string comes back (the empty string on failure). -/
def render_generate (svc : GroqService) (s : SessionState) (step_id : String) :
    SessionState :=
  if needs_generation s step_id then
    record_generated s step_id (generate_with_groq svc (build_prompt s step_id) step_id)
  else s

/-- The successor computation of move_to_next_step (app.py lines
179-184): the registry entry after the current one, or the current id
unchanged when it is the last entry.  A current id outside the registry
makes the Python generator raise; the claims only reach this function
with registry ids, where the first branch never applies. -/
def next_step_id (current : String) : String :=
  match WORKFLOW_STEPS.findIdx? (fun st => st.id == current) with
  | none => current
  | some i =>
    if i < WORKFLOW_STEPS.length - 1 then
      match WORKFLOW_STEPS[i + 1]? with
      | some st => st.id
      | none => current
    else current

/-- move_to_next_step (app.py lines 179-184): advance current_step to the
next registry entry when one exists. -/
def move_to_next_step (s : SessionState) : SessionState :=
  { s with current_step := next_step_id s.current_step }

/-- The Approve button handler (app.py lines 156-158): set the approval
flag, then advance.  The button for step_id is rendered only while
step_id is the current step (render_step dispatches on
st.session_state.current_step), so an approve action on any other stage
runs no handler and leaves the state unchanged. -/
def approve (s : SessionState) (step_id : String) : SessionState :=
  if step_id = s.current_step then
    move_to_next_step { s with approved := insertD s.approved step_id true }
  else s

/-- The Request Changes submit handler (app.py lines 160-168): the next
state paired with the inline warning when one is shown.  Non-empty text
stores the feedback and clears the approval; empty text only warns.  As
with approve, the handler exists only for the rendered current step. -/
def submit_feedback (s : SessionState) (step_id text : String) :
    SessionState × Option String :=
  if step_id = s.current_step then
    if text != "" then
      ({ s with feedback := insertD s.feedback step_id text,
                approved := insertD s.approved step_id false }, none)
    else (s, some "Please enter feedback")
  else (s, none)

/-- check_workflow_completion (app.py lines 187-191): count the
non-intake stages whose approval flag is truthy and compare with the
registry size less the intake stage. -/
def check_workflow_completion (s : SessionState) : Bool :=
  (WORKFLOW_STEPS.filter (fun st =>
      st.id != "api_input" && (lookupD s.approved st.id).getD false)).length
    == WORKFLOW_STEPS.length - 1

/-- One per-stage record of the export document (app.py lines 98-102). -/
structure ExportStep where
  content : String
  feedback : String
  approved : Bool
deriving DecidableEq

/-- The export document (app.py lines 89-93) without the wall-clock
timestamp field, which no claim concerns. -/
structure ExportDocument where
  project : String
  steps : List (String × ExportStep)
deriving DecidableEq

/-- download_entire_workflow (app.py lines 87-108) without the JSON
encoding: the structured document, and the session after the completion
side effect on show_completion_prompt.  The steps mapping is built by
walking the registry and keeping exactly the stages whose
generated_content entry is present, with feedback defaulting to "" and
approved defaulting to false. -/
def download_entire_workflow (s : SessionState) : ExportDocument × SessionState :=
  let steps := WORKFLOW_STEPS.filterMap (fun st =>
    match lookupD s.generated_content st.id with
    | some c => some (st.id,
        ExportStep.mk c ((lookupD s.feedback st.id).getD "")
          ((lookupD s.approved st.id).getD false))
    | none => none)
  let doc := ExportDocument.mk s.project_prompt steps
  let s2 := if check_workflow_completion s then
    { s with show_completion_prompt := true } else s
  (doc, s2)

/-- Whether the pattern is an initial segment of the character list. -/
def startsWithChars : List Char → List Char → Bool
  | [], _ => true
  | _ :: _, [] => false
  | a :: as, b :: bs => a == b && startsWithChars as bs

/-- The number of positions of the character list where the pattern
starts. -/
def countOccs (pat : List Char) : List Char → Nat
  | [] => 0
  | c :: rest => (if startsWithChars pat (c :: rest) then 1 else 0) + countOccs pat rest

/-- How many times the substitution slot of Python str.format appears in
a template. -/
def slot_occurrences (t : String) : Nat :=
  countOccs "{prompt}".data t.data

/-- A completion service that fails every call, as a transport error
would. -/
def failingService : GroqService := fun _ _ => Except.error "connection error"

/-- The session right after intake: current step user_stories, no
approvals, no feedback, no generated content. -/
def sInit : SessionState :=
  { current_step := "user_stories", approved := [], feedback := [],
    generated_content := [], show_completion_prompt := false,
    project_prompt := "demo project" }

/-- A mid-workflow session: user_stories generated and approved, one
pending feedback entry, current step design_docs. -/
def sExport : SessionState :=
  { current_step := "design_docs", approved := [("user_stories", true)],
    feedback := [("user_stories", "shorter please")],
    generated_content := [("user_stories", "story text")],
    show_completion_prompt := false, project_prompt := "demo project" }

/-! ## Lemmas about the dict model and the handlers -/

theorem lookupD_insertD_self {α : Type} (m : List (String × α)) (k : String) (v : α) :
    lookupD (insertD m k v) k = some v := by
  induction m with
  | nil => simp [insertD, lookupD]
  | cons p rest ih =>
    by_cases h : p.1 = k
    · simp [insertD, lookupD, h]
    · simp [insertD, lookupD, h, ih]

theorem lookupD_insertD_ne {α : Type} (m : List (String × α)) (k k' : String) (v : α)
    (h : k' ≠ k) : lookupD (insertD m k v) k' = lookupD m k' := by
  have hne : ¬ k = k' := fun hh => h hh.symm
  induction m with
  | nil => simp [insertD, lookupD, hne]
  | cons p rest ih =>
    by_cases hp : p.1 = k
    · subst hp
      simp [insertD, lookupD, hne]
    · by_cases hp' : p.1 = k'
      · simp [insertD, lookupD, hp, hp', h]
      · simp [insertD, lookupD, hp, hp', ih]

theorem lookupD_some_mem {α : Type} (m : List (String × α)) (k : String) (v : α)
    (h : lookupD m k = some v) : (k, v) ∈ m := by
  induction m with
  | nil => simp [lookupD] at h
  | cons p rest ih =>
    by_cases hp : p.1 = k
    · rw [lookupD, if_pos hp] at h
      have hv : p.2 = v := by injection h
      have hpkv : p = (k, v) := by
        rcases p with ⟨a, b⟩
        simp at hp hv
        simp [hp, hv]
      rw [← hpkv]
      exact List.mem_cons_self _ _
    · rw [lookupD, if_neg hp] at h
      exact List.mem_cons_of_mem _ (ih h)

theorem approve_eq_of_current (s : SessionState) (step_id : String)
    (hcur : step_id = s.current_step) :
    approve s step_id =
      move_to_next_step { s with approved := insertD s.approved step_id true } := by
  unfold approve
  rw [if_pos hcur]

theorem approve_noop_of_not_current (s : SessionState) (step_id : String)
    (h : step_id ≠ s.current_step) : approve s step_id = s := by
  unfold approve
  rw [if_neg h]

theorem next_step_id_spec (i : Nat) (id : String)
    (hidx : (WORKFLOW_STEPS.map Step.id)[i]? = some id) :
    next_step_id id = ((WORKFLOW_STEPS.map Step.id)[i + 1]?).getD id := by
  have hi : i < 10 := by
    by_contra hc
    push_neg at hc
    rw [List.getElem?_eq_none (by simpa [WORKFLOW_STEPS] using hc)] at hidx
    cases hidx
  interval_cases i <;>
    (simp only [WORKFLOW_STEPS, List.map] at hidx
     simp at hidx
     subst hidx
     decide)

/-! ## The claims -/

/-- C2: for every session and every registry stage id equal to the
current stage, approve sets approved[stageId] = true and moves
current_step to exactly the registry entry immediately following, or
leaves it unchanged when the stage is the last entry. -/
theorem approve_advances_to_next_registry_entry (s : SessionState)
    (step_id : String) (i : Nat) (hcur : step_id = s.current_step)
    (hidx : (WORKFLOW_STEPS.map Step.id)[i]? = some step_id) :
    lookupD (approve s step_id).approved step_id = some true ∧
    (approve s step_id).current_step =
      ((WORKFLOW_STEPS.map Step.id)[i + 1]?).getD s.current_step := by
  rw [approve_eq_of_current s step_id hcur]
  constructor
  · simp [move_to_next_step, lookupD_insertD_self]
  · simp only [move_to_next_step]
    rw [← hcur]
    exact next_step_id_spec i step_id hidx

/-- C2 witness: at the post-intake session, approving user_stories sets
its flag and moves current_step to the entry after registry index 1. -/
theorem approve_advances_to_next_registry_entry_witness :
    lookupD (approve sInit "user_stories").approved "user_stories" = some true ∧
    (approve sInit "user_stories").current_step =
      ((WORKFLOW_STEPS.map Step.id)[2]?).getD sInit.current_step :=
  approve_advances_to_next_registry_entry sInit "user_stories" 1 rfl (by decide)

/-- C3: once a first approve has made step_id non-current, a second
approve of step_id changes neither approved nor current_step. -/
theorem approve_twice_second_noop (s : SessionState) (step_id : String)
    (h : (approve s step_id).current_step ≠ step_id) :
    (approve (approve s step_id) step_id).approved = (approve s step_id).approved ∧
    (approve (approve s step_id) step_id).current_step =
      (approve s step_id).current_step := by
  rw [approve_noop_of_not_current (approve s step_id) step_id (fun hh => h hh.symm)]
  exact ⟨rfl, rfl⟩

/-- C3 witness: approving user_stories twice from the post-intake
session; the second call changes nothing. -/
theorem approve_twice_second_noop_witness :
    (approve (approve sInit "user_stories") "user_stories").approved =
      (approve sInit "user_stories").approved ∧
    (approve (approve sInit "user_stories") "user_stories").current_step =
      (approve sInit "user_stories").current_step :=
  approve_twice_second_noop sInit "user_stories" (by decide)

/-- C4: needs_generation holds exactly when the stage has no generated
content, or its feedback entry is present and non-empty. -/
theorem needs_generation_iff_absent_or_feedback (s : SessionState) (step_id : String) :
    needs_generation s step_id = true ↔
      lookupD s.generated_content step_id = none ∨
        (∃ t, lookupD s.feedback step_id = some t ∧ t ≠ "") := by
  unfold needs_generation pendingD
  cases hg : lookupD s.generated_content step_id <;>
    cases hf : lookupD s.feedback step_id <;> simp [hg, hf]

theorem filter_and_length {α : Type} (p q : α → Bool) (l : List α) :
    (l.filter fun a => p a && q a).length = ((l.filter p).filter q).length := by
  induction l with
  | nil => rfl
  | cons a t ih =>
    by_cases hp : p a <;> by_cases hq : q a <;>
      simp [List.filter_cons, hp, hq, ih]

theorem filter_length_eq_iff {α : Type} (q : α → Bool) (l : List α) :
    (l.filter q).length = l.length ↔ ∀ a ∈ l, q a = true := by
  induction l with
  | nil => simp
  | cons a t ih =>
    by_cases hq : q a = true
    · simp [List.filter_cons, hq, ih]
    · simp only [List.filter_cons, hq, if_neg, Bool.false_eq_true, ite_false,
        List.length_cons, List.mem_cons]
      constructor
      · intro hlen
        exfalso
        have hle := List.length_filter_le q t
        omega
      · intro hall
        exact absurd (hall a (Or.inl rfl)) hq

/-- C5: the completion check holds exactly when every non-intake registry
stage has approval flag true, over every session state. -/
theorem check_workflow_completion_iff_all_nonintake_approved (s : SessionState) :
    check_workflow_completion s = true ↔
      ∀ st ∈ WORKFLOW_STEPS, st.id ≠ "api_input" →
        (lookupD s.approved st.id).getD false = true := by
  unfold check_workflow_completion
  rw [beq_iff_eq]
  rw [filter_and_length (fun st => st.id != "api_input")
    (fun st => (lookupD s.approved st.id).getD false) WORKFLOW_STEPS]
  have hlen : (WORKFLOW_STEPS.filter (fun st => st.id != "api_input")).length =
      WORKFLOW_STEPS.length - 1 := by decide
  rw [← hlen, filter_length_eq_iff]
  constructor
  · intro h st hst hid
    exact h st (List.mem_filter.mpr ⟨hst, by simpa [bne_iff_ne] using hid⟩)
  · intro h st hst
    rcases List.mem_filter.mp hst with ⟨hmem, hid⟩
    exact h st hmem (by simpa [bne_iff_ne] using hid)

theorem export_mem_iff (s : SessionState) (id : String) (e : ExportStep) :
    (id, e) ∈ (download_entire_workflow s).1.steps ↔
      ∃ st ∈ WORKFLOW_STEPS, st.id = id ∧
        lookupD s.generated_content id = some e.content ∧
        e.feedback = (lookupD s.feedback id).getD "" ∧
        e.approved = (lookupD s.approved id).getD false := by
  unfold download_entire_workflow
  simp only [List.mem_filterMap]
  constructor
  · rintro ⟨st, hst, hf⟩
    cases hq : lookupD s.generated_content st.id with
    | none =>
      rw [hq] at hf
      cases hf
    | some c =>
      rw [hq] at hf
      have hpair : (st.id, ExportStep.mk c ((lookupD s.feedback st.id).getD "")
          ((lookupD s.approved st.id).getD false)) = (id, e) := by
        injection hf
      have hid : st.id = id := congrArg Prod.fst hpair
      have he : ExportStep.mk c ((lookupD s.feedback st.id).getD "")
          ((lookupD s.approved st.id).getD false) = e := congrArg Prod.snd hpair
      refine ⟨st, hst, hid, ?_, ?_, ?_⟩
      · rw [← hid, hq, ← he]
      · rw [← he, ← hid]
      · rw [← he, ← hid]
  · rintro ⟨st, hst, hid, hc, hfb, hap⟩
    refine ⟨st, hst, ?_⟩
    rw [hid, hc]
    have he : e = ExportStep.mk e.content e.feedback e.approved := rfl
    rw [he, hfb, hap]

/-- C6: over every session whose generated_content keys are registry
stage ids, the export document has a steps entry for exactly the stage
ids with generated content, carrying that content with feedback
defaulting to "" and approved defaulting to false when absent. -/
theorem export_steps_exactly_generated (s : SessionState)
    (hkeys : ∀ p ∈ s.generated_content, p.1 ∈ WORKFLOW_STEPS.map Step.id) :
    (∀ id : String,
      (∃ e, (id, e) ∈ (download_entire_workflow s).1.steps) ↔
        (lookupD s.generated_content id).isSome = true) ∧
    (∀ id e, (id, e) ∈ (download_entire_workflow s).1.steps →
      lookupD s.generated_content id = some e.content ∧
      e.feedback = (lookupD s.feedback id).getD "" ∧
      e.approved = (lookupD s.approved id).getD false) := by
  constructor
  · intro id
    constructor
    · rintro ⟨e, he⟩
      rcases (export_mem_iff s id e).mp he with ⟨st, _, _, hc, _, _⟩
      rw [hc]
      rfl
    · intro hsome
      rcases Option.isSome_iff_exists.mp hsome with ⟨c, hc⟩
      have hmem := lookupD_some_mem s.generated_content id c hc
      rcases List.mem_map.mp (hkeys (id, c) hmem) with ⟨st, hst, hid⟩
      refine ⟨ExportStep.mk c ((lookupD s.feedback id).getD "")
        ((lookupD s.approved id).getD false), ?_⟩
      exact (export_mem_iff s id _).mpr ⟨st, hst, hid, by rw [hc], rfl, rfl⟩
  · intro id e he
    rcases (export_mem_iff s id e).mp he with ⟨st, _, _, hc, hfb, hap⟩
    exact ⟨hc, hfb, hap⟩

/-- C6 witness: the mid-workflow session exports exactly its one
generated stage. -/
theorem export_steps_exactly_generated_witness :
    (∀ id : String,
      (∃ e, (id, e) ∈ (download_entire_workflow sExport).1.steps) ↔
        (lookupD sExport.generated_content id).isSome = true) ∧
    (∀ id e, (id, e) ∈ (download_entire_workflow sExport).1.steps →
      lookupD sExport.generated_content id = some e.content ∧
      e.feedback = (lookupD sExport.feedback id).getD "" ∧
      e.approved = (lookupD sExport.approved id).getD false) :=
  export_steps_exactly_generated sExport (by decide)

/-- C7: submitting feedback on the current stage: empty text only warns
and leaves the state unchanged; non-empty text stores the feedback,
clears the approval and keeps current_step where it is. -/
theorem submit_feedback_spec (s : SessionState) (step_id text : String)
    (hcur : step_id = s.current_step) :
    (text = "" → submit_feedback s step_id text = (s, some "Please enter feedback")) ∧
    (text ≠ "" →
      lookupD (submit_feedback s step_id text).1.feedback step_id = some text ∧
      lookupD (submit_feedback s step_id text).1.approved step_id = some false ∧
      (submit_feedback s step_id text).1.current_step = s.current_step ∧
      (submit_feedback s step_id text).2 = none) := by
  constructor
  · intro he
    subst he
    simp [submit_feedback, hcur]
  · intro hne
    have hb : (text != "") = true := by simpa [bne_iff_ne] using hne
    simp [submit_feedback, hcur, hb, lookupD_insertD_self]

/-- C7 witness: at the post-intake session, empty feedback on
user_stories is rejected with the warning and no state change, and
non-empty feedback is stored with the approval cleared. -/
theorem submit_feedback_spec_witness :
    submit_feedback sInit "user_stories" "" = (sInit, some "Please enter feedback") ∧
    (lookupD (submit_feedback sInit "user_stories" "shorter").1.feedback
        "user_stories" = some "shorter" ∧
      lookupD (submit_feedback sInit "user_stories" "shorter").1.approved
        "user_stories" = some false ∧
      (submit_feedback sInit "user_stories" "shorter").1.current_step =
        sInit.current_step ∧
      (submit_feedback sInit "user_stories" "shorter").2 = none) :=
  ⟨(submit_feedback_spec sInit "user_stories" "" rfl).1 rfl,
   (submit_feedback_spec sInit "user_stories" "shorter" rfl).2 (by decide)⟩

/-- C1 counterexample: after one failing generation call on a stage with
no content, the stage's generated_content entry is present (the stored
empty string), and the next render would not regenerate. -/
theorem generation_failure_content_present :
    lookupD (render_generate failingService sInit "user_stories").generated_content
        "user_stories" = some "" ∧
    needs_generation (render_generate failingService sInit "user_stories")
        "user_stories" = false := by decide

/-- C1 amended: on a failing generation call while the render guard
holds, the generator catches the error and returns the empty string, the
render path stores it, so generated_content[stageId] is present (equal
to "") afterwards and, unless the stage has pending feedback,
needs_generation is false on the next render: generation is not
retried. -/
theorem generation_failure_stores_empty (svc : GroqService) (s : SessionState)
    (step_id err : String)
    (hfail : svc (build_prompt s step_id) step_id = Except.error err)
    (hneed : needs_generation s step_id = true) :
    generate_with_groq svc (build_prompt s step_id) step_id = "" ∧
    lookupD (render_generate svc s step_id).generated_content step_id = some "" ∧
    (pendingD s.feedback step_id = false →
      needs_generation (render_generate svc s step_id) step_id = false) := by
  have hg : generate_with_groq svc (build_prompt s step_id) step_id = "" := by
    unfold generate_with_groq
    rw [hfail]
  have hrg : render_generate svc s step_id =
      record_generated s step_id
        (generate_with_groq svc (build_prompt s step_id) step_id) := by
    unfold render_generate
    rw [if_pos hneed]
  refine ⟨hg, ?_, ?_⟩
  · rw [hrg, hg]
    simp [record_generated, lookupD_insertD_self]
  · intro hpend
    rw [hrg, hg]
    simp [needs_generation, record_generated, lookupD_insertD_self, hpend]

/-- C1 amended witness: the failing service at the post-intake session on
user_stories. -/
theorem generation_failure_stores_empty_witness :
    generate_with_groq failingService (build_prompt sInit "user_stories")
        "user_stories" = "" ∧
    lookupD (render_generate failingService sInit "user_stories").generated_content
        "user_stories" = some "" ∧
    (pendingD sInit.feedback "user_stories" = false →
      needs_generation (render_generate failingService sInit "user_stories")
        "user_stories" = false) :=
  generation_failure_stores_empty failingService sInit "user_stories"
    "connection error" rfl (by decide)

/-- C8 counterexample: code_review is a non-intake registry stage with no
prompt template, so not every non-intake stage has an associated
template. -/
theorem nonintake_stage_without_template :
    "code_review" ∈ WORKFLOW_STEPS.map Step.id ∧
    "code_review" ≠ "api_input" ∧
    lookupD PROMPT_TEMPLATES "code_review" = none ∧
    ¬ (∀ st ∈ WORKFLOW_STEPS, st.id ≠ "api_input" →
        (lookupD PROMPT_TEMPLATES st.id).isSome = true) := by decide

set_option maxRecDepth 8000 in
/-- C8 amended: exactly five non-intake stages (user_stories,
design_docs, code_generation, test_cases, deployment) carry a prompt
template, each containing the substitution slot exactly once; the other
four non-intake stages (code_review, security_review, qa_testing,
monitoring) have no template and their prompt is built from the empty
default. -/
theorem prompt_templates_cover_five_stages :
    PROMPT_TEMPLATES.map Prod.fst =
      ["user_stories", "design_docs", "code_generation", "test_cases", "deployment"] ∧
    (∀ p ∈ PROMPT_TEMPLATES, p.1 ∈ WORKFLOW_STEPS.map Step.id ∧
      p.1 ≠ "api_input" ∧ slot_occurrences p.2 = 1) ∧
    (∀ id ∈ ["code_review", "security_review", "qa_testing", "monitoring"],
      id ∈ WORKFLOW_STEPS.map Step.id ∧
      lookupD PROMPT_TEMPLATES id = none) := by decide

/-- C9: assembling the export mutates nothing in the session except the
show_completion_prompt flag, which becomes true exactly when the
completion check holds and is otherwise left as it was. -/
theorem download_frame_and_completion_flag (s : SessionState) :
    (download_entire_workflow s).2.generated_content = s.generated_content ∧
    (download_entire_workflow s).2.feedback = s.feedback ∧
    (download_entire_workflow s).2.approved = s.approved ∧
    (download_entire_workflow s).2.current_step = s.current_step ∧
    (download_entire_workflow s).2.project_prompt = s.project_prompt ∧
    (download_entire_workflow s).2.show_completion_prompt =
      (if check_workflow_completion s then true else s.show_completion_prompt) := by
  unfold download_entire_workflow
  by_cases h : check_workflow_completion s <;> simp [h]

theorem approve_feedback_eq (s : SessionState) (other : String) :
    (approve s other).feedback = s.feedback := by
  unfold approve move_to_next_step
  by_cases h : other = s.current_step <;> simp [h]

theorem render_generate_feedback_eq (svc : GroqService) (s : SessionState)
    (other : String) : (render_generate svc s other).feedback = s.feedback := by
  unfold render_generate record_generated
  by_cases h : needs_generation s other = true <;> simp [h]

theorem download_feedback_eq (s : SessionState) :
    (download_entire_workflow s).2.feedback = s.feedback := by
  unfold download_entire_workflow
  by_cases h : check_workflow_completion s <;> simp [h]

theorem pendingD_insertD_of_pending (m : List (String × String))
    (id other text : String) (hp : pendingD m id = true)
    (ht : (text != "") = true) : pendingD (insertD m other text) id = true := by
  by_cases hio : id = other
  · subst hio
    unfold pendingD
    rw [lookupD_insertD_self]
    exact ht
  · unfold pendingD
    rw [lookupD_insertD_ne m other id text hio]
    exact hp

theorem submit_feedback_pending_preserved (s : SessionState)
    (id other text : String) (hp : pendingD s.feedback id = true) :
    pendingD (submit_feedback s other text).1.feedback id = true := by
  unfold submit_feedback
  by_cases hcur : other = s.current_step
  · by_cases ht : (text != "") = true
    · simp only [hcur, if_pos rfl, ht, if_pos rfl]
      exact pendingD_insertD_of_pending s.feedback id s.current_step text hp ht
    · simp only [hcur, if_pos rfl, ht]
      simpa using hp
  · rw [if_neg hcur]
    exact hp

/-- C10: storing a generation result sets generated_content[stageId] to
the new content (overwriting any previous value) and leaves feedback
untouched, so a stage with pending feedback still needs generation
afterwards; and no workflow operation (approve, feedback submission,
rendering, export, storing) empties a pending feedback entry. -/
theorem record_generated_frame (s : SessionState) (step_id content : String) :
    lookupD (record_generated s step_id content).generated_content step_id =
      some content ∧
    (record_generated s step_id content).feedback = s.feedback ∧
    (pendingD s.feedback step_id = true →
      needs_generation (record_generated s step_id content) step_id = true) ∧
    (∀ id, pendingD s.feedback id = true →
      (∀ other, pendingD (approve s other).feedback id = true) ∧
      (∀ other text, pendingD (submit_feedback s other text).1.feedback id = true) ∧
      (∀ svc other, pendingD (render_generate svc s other).feedback id = true) ∧
      pendingD (download_entire_workflow s).2.feedback id = true ∧
      (∀ other c2, pendingD (record_generated s other c2).feedback id = true)) := by
  refine ⟨?_, rfl, ?_, ?_⟩
  · unfold record_generated
    simp [lookupD_insertD_self]
  · intro hp
    unfold needs_generation record_generated
    simp [hp]
  · intro id hp
    refine ⟨?_, ?_, ?_, ?_, ?_⟩
    · intro other
      rw [approve_feedback_eq]
      exact hp
    · intro other text
      exact submit_feedback_pending_preserved s id other text hp
    · intro svc other
      rw [render_generate_feedback_eq]
      exact hp
    · rw [download_feedback_eq]
      exact hp
    · intro other c2
      exact hp
